import Mathlib

/-!
Shallow embedding of the flight-search assistant's core tool functions
(`validate_date_format`, `get_airport_code`, `get_flight_prices`) and the
conversation state they read and write, together with theorems settling the
specification claims about them.

The Python sources are straight-line code over JSON dictionaries; here JSON
optionality becomes `Option`, the conversation state becomes an explicit
record threaded through each call, and the single outbound HTTP request of
each function becomes an oracle parameter describing the transport outcome
(timeout, transport error, unexpected exception, or a response with a status
code and an optionally-parsed body).
-/

namespace FlightAssistant

/-- A single-quote character, used to reproduce the quoted field values in the
source's error messages. -/
def sq : String := String.singleton (Char.ofNat 39)

/-- Python truthiness of a string: non-empty. -/
def strTruthy (s : String) : Bool := !s.isEmpty

/-- Python truthiness of an optional string (`None` and `""` are falsy). -/
def optStrTruthy : Option String → Bool
  | none => false
  | some s => !s.isEmpty

/-- Python `str.isalpha()` restricted to the ASCII letters the claims use:
true on a non-empty string all of whose characters are alphabetic. -/
def pyIsAlpha (s : String) : Bool := !s.data.isEmpty && s.data.all Char.isAlpha

/-- Numeric value of a decimal digit character. -/
def digitVal (c : Char) : Nat := c.toNat - 48

/-- Parse a character list of the exact shape `\d{4}-\d{2}-\d{2}` into
`(year, month, day)`; `none` when the shape does not match. -/
def dateComponents : List Char → Option (Nat × Nat × Nat)
  | [y1, y2, y3, y4, h1, m1, m2, h2, d1, d2] =>
    if y1.isDigit && y2.isDigit && y3.isDigit && y4.isDigit && h1 == '-' &&
       m1.isDigit && m2.isDigit && h2 == '-' && d1.isDigit && d2.isDigit then
      some (digitVal y1 * 1000 + digitVal y2 * 100 + digitVal y3 * 10 + digitVal y4,
            digitVal m1 * 10 + digitVal m2,
            digitVal d1 * 10 + digitVal d2)
    else none
  | _ => none

/-- The string matches `^\d{4}-\d{2}-\d{2}$` in the mathematical sense:
exactly ten characters of the required shape. -/
def datePatternExact (s : String) : Bool := (dateComponents s.data).isSome

/-- Python `re.match(r'^\d{4}-\d{2}-\d{2}$', s)`: Python's `$` also matches
just before a single trailing newline, so the pattern accepts both the exact
ten-character shape and that shape followed by one final newline. -/
def pyDateRegexMatch (s : String) : Bool :=
  datePatternExact s ||
    (match s.data.getLast? with
     | some c => c == '\n' && (dateComponents (s.data.take 10)).isSome && s.data.length == 11
     | none => false)

/-- Gregorian leap-year rule, as used by Python's `datetime`. -/
def isLeapYear (y : Nat) : Bool := y % 4 == 0 && (y % 100 != 0 || y % 400 == 0)

/-- Number of days in a month of a given year. -/
def daysInMonth (y m : Nat) : Nat :=
  if m == 2 then (if isLeapYear y then 29 else 28)
  else if m == 4 || m == 6 || m == 9 || m == 11 then 30
  else 31

/-- `datetime.strptime(s, m)` succeeds on the inputs reachable in
`validate_date_format` (which are pre-filtered by the regex): the string is
exactly the ten-character shape and denotes a real calendar date.
`datetime` requires year at least 1; a four-digit year is at most 9999. -/
def strptimeRealDate (s : String) : Bool :=
  match dateComponents s.data with
  | some (y, m, d) => 1 ≤ y && 1 ≤ m && m ≤ 12 && 1 ≤ d && d ≤ daysInMonth y m
  | none => false

/-- `validate_date_format` from `utils/validate_date_format.py`: regex check
first, then a real-date parse whose failure is converted to `false`. -/
def validate_date_format (s : String) : Bool :=
  if !pyDateRegexMatch s then false
  else strptimeRealDate s

/-! ## Data model -/

/-- Opaque payload of one flight offer in the upstream JSON. -/
abbrev Flight := String

/-- The `price_insights` object of the upstream JSON; the two fields the code
reads, each optional (`dict.get` with default). -/
structure PriceInsights where
  lowest_price : Option String
  price_level : Option String
deriving DecidableEq, Repr

/-- Parsed JSON body of a flight-search response: the four keys
`get_flight_prices` reads, each possibly absent. -/
structure FlightData where
  error : Option String
  best_flights : Option (List Flight)
  other_flights : Option (List Flight)
  price_insights : Option PriceInsights
deriving DecidableEq, Repr

/-- One entry of `state["flight_searches"]`, exactly the `current_search`
dictionary the source appends. -/
structure FlightSearchEntry where
  departure : String
  arrival : String
  outbound_date : String
  return_date : Option String
deriving DecidableEq, Repr

/-- The `flight_search_params` sub-dictionary of a flight-search result. -/
structure SearchParams where
  fromId : String
  toId : String
  outbound_date : String
  return_date : Option String
  trip_type : String
deriving DecidableEq, Repr

/-- Result dictionary of `get_flight_prices`, tagged by its `status` field. -/
inductive FlightResult where
  | error (error_message : String)
  | noResults (message : String) (flight_search_params : SearchParams)
  | success (flight_search_params : SearchParams)
      (best_flights : List Flight) (other_flights : List Flight)
      (price_insights : Option PriceInsights)
deriving DecidableEq, Repr

/-- The `status` field of a flight-search result. -/
def FlightResult.status : FlightResult → String
  | .error _ => "error"
  | .noResults _ _ => "no_results"
  | .success _ _ _ _ => "success"

/-- The `trip_type` recorded in the result's `flight_search_params`, when the
result carries search parameters. -/
def FlightResult.tripTypeOf : FlightResult → Option String
  | .error _ => none
  | .noResults _ p => some p.trip_type
  | .success p _ _ _ => some p.trip_type

/-- Result dictionary of `get_airport_code`, tagged by its `status` field; the
two success shapes carry `airport_details` (knowledge graph, opaque payload)
or `search_results` (capped organic results). -/
inductive AirportResult where
  | error (error_message : String)
  | successKG (airport_details : String)
  | successOrganic (search_results : List String)
deriving DecidableEq, Repr

/-- The `status` field of an airport-code result. -/
def AirportResult.status : AirportResult → String
  | .error _ => "error"
  | .successKG _ => "success"
  | .successOrganic _ => "success"

/-- Parsed JSON body of an airport-code search response: the two keys
`get_airport_code` probes, each possibly absent. -/
structure AirportData where
  knowledge_graph : Option String
  organic_results : Option (List String)
deriving DecidableEq, Repr

/-- The conversation-scoped mutable state shared across tool invocations. -/
structure ConvState where
  flight_searches : List FlightSearchEntry
  last_flight_search : Option FlightResult
  airport_searches : List String
  last_airport_code : Option AirportResult
deriving DecidableEq, Repr

/-- Transport outcome of the single `requests.get` in `get_flight_prices`:
timeout, other request exception, an unexpected exception, or a response with
a status code and a body (`none` body = JSON parse failure). -/
inductive HttpOutcome where
  | timeout
  | requestError (msg : String)
  | unexpected (msg : String)
  | response (statusCode : Nat) (body : Option FlightData)
deriving DecidableEq, Repr

/-- Transport outcome of the single `requests.get` in `get_airport_code`:
`raise_for_status` folds HTTP errors into the request-exception case, and a
parse failure lands in the generic-exception case, so a surviving response is
always a parsed body. -/
inductive AHttpOutcome where
  | timeout
  | requestError (msg : String)
  | unexpected (msg : String)
  | ok (body : AirportData)
deriving DecidableEq, Repr

/-! ## The tool functions -/

/-- The inline airport-code validation of `get_flight_prices`:
`code and len(code) == 3 and code.isalpha()`. -/
def iataCodeOk (s : String) : Bool :=
  strTruthy s && s.length == 3 && pyIsAlpha s

/-- The human-readable message of the `no_results` branch, built exactly as
the source concatenates it: route and outbound date, then either the return
date or a one-way marker, then optional price-insight hints. -/
def noFlightsMessage (departure_id arrival_id outbound_date : String)
    (return_date : Option String) (price_insights : Option PriceInsights) : String :=
  let m1 := "No flights found for " ++ departure_id ++ " to " ++ arrival_id ++
    " on " ++ outbound_date
  let m2 := if optStrTruthy return_date then
      m1 ++ " returning " ++ return_date.getD "" ++ "."
    else m1 ++ " (one-way)."
  match price_insights with
  | some pi => m2 ++ " Price insights: " ++ pi.lowest_price.getD "N/A" ++
      ", typical range: " ++ pi.price_level.getD "N/A" ++ "."
  | none => m2

/-- The query parameters of the outbound flight-search request, in the order
the source inserts them: fixed engine/locale parameters, upper-cased airport
codes, the outbound date and currency, then either the `return_date`
parameter (round trip) or the one-way `type` discriminator. -/
def flightQueryParams (serp_api_key : Option String)
    (departure_id arrival_id outbound_date : String)
    (return_date : Option String) : List (String × String) :=
  let baseParams : List (String × String) :=
    [("api_key", serp_api_key.getD ""), ("engine", "google_flights"),
     ("hl", "en"), ("gl", "in"),
     ("departure_id", departure_id.toUpper), ("arrival_id", arrival_id.toUpper),
     ("outbound_date", outbound_date), ("currency", "INR")]
  if optStrTruthy return_date then baseParams ++ [("return_date", return_date.getD "")]
  else baseParams ++ [("type", "2")]

/-- Output of one `get_flight_prices` call: the returned result dictionary,
the conversation state after the call, and the query string of the outbound
HTTP request (`none` when the function returned before issuing it). -/
structure FPOut where
  result : FlightResult
  state : ConvState
  query : Option (List (String × String))
deriving DecidableEq, Repr

/-- Output of one `get_airport_code` call: result, state after the call, and
whether the outbound HTTP request was issued. -/
structure ACOut where
  result : AirportResult
  state : ConvState
  requested : Bool
deriving DecidableEq, Repr

/-- `get_flight_prices` from `tools/get_flight_prices.py`, with the module's
`serp_api_key` and the transport outcome passed explicitly. -/
def get_flight_prices (serp_api_key : Option String) (st : ConvState)
    (departure_id arrival_id outbound_date : String) (return_date : Option String)
    (http : HttpOutcome) : FPOut :=
  if !optStrTruthy serp_api_key then
    { result := .error "SERP_API_KEY not found in environment variables.",
      state := st, query := none }
  else
    let current_search : FlightSearchEntry :=
      { departure := departure_id, arrival := arrival_id,
        outbound_date := outbound_date, return_date := return_date }
    let st1 : ConvState :=
      { st with flight_searches := st.flight_searches ++ [current_search] }
    if !validate_date_format outbound_date then
      { result := .error ("Invalid outbound date format: " ++ sq ++ outbound_date ++
          sq ++ ". Please use YYYY-MM-DD."),
        state := st1, query := none }
    else if optStrTruthy return_date && !validate_date_format (return_date.getD "") then
      { result := .error ("Invalid return date format: " ++ sq ++ return_date.getD "" ++
          sq ++ ". Please use YYYY-MM-DD."),
        state := st1, query := none }
    else if !iataCodeOk departure_id then
      { result := .error ("Invalid departure airport code: " ++ sq ++ departure_id ++
          sq ++ ". Please provide a valid 3-letter IATA code."),
        state := st1, query := none }
    else if !iataCodeOk arrival_id then
      { result := .error ("Invalid arrival airport code: " ++ sq ++ arrival_id ++
          sq ++ ". Please provide a valid 3-letter IATA code."),
        state := st1, query := none }
    else
      let query_params : List (String × String) :=
        flightQueryParams serp_api_key departure_id arrival_id outbound_date return_date
      let trip_type : String := if optStrTruthy return_date then "round-trip" else "one-way"
      match http with
      | .timeout =>
        { result := .error "Flight search request timed out. Please try again later.",
          state := st1, query := some query_params }
      | .requestError msg =>
        { result := .error ("Network error during flight search: " ++ msg),
          state := st1, query := some query_params }
      | .unexpected msg =>
        { result := .error ("An unexpected error occurred: " ++ msg),
          state := st1, query := some query_params }
      | .response statusCode body =>
        if statusCode == 401 then
          { result := .error "API Authentication Failed (401). Check SerpAPI key.",
            state := st1, query := some query_params }
        else if statusCode == 429 then
          { result := .error "API Rate Limit Exceeded (429). Try again later.",
            state := st1, query := some query_params }
        else if statusCode ≥ 400 then
          { result := .error ("Flight search failed with HTTP " ++ toString statusCode ++
              ". Check parameters or try again."),
            state := st1, query := some query_params }
        else
          match body with
          | none =>
            { result := .error "Failed to parse API response. Service might be unavailable.",
              state := st1, query := some query_params }
          | some flight_data =>
            match flight_data.error with
            | some e =>
              { result := .error ("API Error: " ++ e),
                state := st1, query := some query_params }
            | none =>
              let best_flights := flight_data.best_flights.getD []
              let other_flights := flight_data.other_flights.getD []
              let price_insights := flight_data.price_insights
              let params : SearchParams :=
                { fromId := departure_id, toId := arrival_id,
                  outbound_date := outbound_date, return_date := return_date,
                  trip_type := trip_type }
              if best_flights.isEmpty && other_flights.isEmpty then
                { result := .noResults
                    (noFlightsMessage departure_id arrival_id outbound_date
                      return_date price_insights) params,
                  state := st1, query := some query_params }
              else
                let processed := FlightResult.success params best_flights
                  other_flights price_insights
                { result := processed,
                  state := { st1 with last_flight_search := some processed },
                  query := some query_params }

/-- `get_airport_code` from `tools/get_airport_code.py`, with the module's
`serp_api_key` and the transport outcome passed explicitly. -/
def get_airport_code (serp_api_key : Option String) (st : ConvState)
    (city_name : String) (http : AHttpOutcome) : ACOut :=
  if !optStrTruthy serp_api_key then
    { result := .error "SERP_API_KEY not found in environment variables.",
      state := st, requested := false }
  else
    let st1 : ConvState :=
      { st with airport_searches := st.airport_searches ++ [city_name] }
    match http with
    | .timeout =>
      { result := .error "Airport code search request timed out.",
        state := st1, requested := true }
    | .requestError msg =>
      { result := .error ("Error during airport code search request: " ++ msg),
        state := st1, requested := true }
    | .unexpected msg =>
      { result := .error ("An unexpected error occurred during airport code search: " ++ msg),
        state := st1, requested := true }
    | .ok data =>
      match data.knowledge_graph with
      | some kg =>
        let result := AirportResult.successKG kg
        { result := result,
          state := { st1 with last_airport_code := some result }, requested := true }
      | none =>
        match data.organic_results with
        | some organic =>
          let result := AirportResult.successOrganic (organic.take 3)
          { result := result,
            state := { st1 with last_airport_code := some result }, requested := true }
        | none =>
          { result := .error ("Could not find airport code for " ++ city_name),
            state := st1, requested := true }

/-- A fresh conversation state, as at session start. -/
def st0 : ConvState := ⟨[], none, [], none⟩

/-! ## Substring machinery

An executable substring check on character lists, used to state "the message
contains X" claims. -/

/-- `listPrefixB n h`: `n` is a prefix of `h`. -/
def listPrefixB : List Char → List Char → Bool
  | [], _ => true
  | _ :: _, [] => false
  | a :: as, b :: bs => a == b && listPrefixB as bs

/-- `listInfixB n h`: `n` occurs contiguously inside `h`. -/
def listInfixB : List Char → List Char → Bool
  | n, [] => n.isEmpty
  | n, c :: rest => listPrefixB n (c :: rest) || listInfixB n rest

theorem listPrefixB_self_append (n t : List Char) : listPrefixB n (n ++ t) = true := by
  induction n with
  | nil => rfl
  | cons c cs ih => simp [listPrefixB, ih]

theorem listInfixB_nil_left (hay : List Char) : listInfixB [] hay = true := by
  cases hay <;> simp [listInfixB, listPrefixB]

theorem listInfixB_append (n pre post : List Char) :
    listInfixB n (pre ++ (n ++ post)) = true := by
  induction pre with
  | nil =>
    cases n with
    | nil => simpa using listInfixB_nil_left post
    | cons c cs =>
      have hp : listPrefixB (c :: cs) ((c :: cs) ++ post) = true :=
        listPrefixB_self_append (c :: cs) post
      simp only [List.cons_append] at hp
      simp [listInfixB, hp]
  | cons p ps ih => simp [listInfixB, ih]

/-- Intro rule: exhibit the split of the haystack around the needle. -/
theorem listInfixB_intro (n pre post hay : List Char)
    (h : hay = pre ++ (n ++ post)) : listInfixB n hay = true :=
  h ▸ listInfixB_append n pre post

theorem listPrefixB_append_right (n h t : List Char)
    (hp : listPrefixB n h = true) : listPrefixB n (h ++ t) = true := by
  induction n generalizing h with
  | nil => rfl
  | cons a as ih =>
    cases h with
    | nil => simp [listPrefixB] at hp
    | cons b bs =>
      simp only [listPrefixB, Bool.and_eq_true] at hp
      simp only [List.cons_append, listPrefixB, Bool.and_eq_true]
      exact ⟨hp.1, ih bs hp.2⟩

theorem listInfixB_append_right (n h t : List Char)
    (hi : listInfixB n h = true) : listInfixB n (h ++ t) = true := by
  induction h with
  | nil =>
    have hn : n = [] := by simpa [listInfixB] using hi
    subst hn
    exact listInfixB_nil_left t
  | cons c cs ih =>
    simp only [listInfixB, Bool.or_eq_true] at hi
    simp only [List.cons_append, listInfixB, Bool.or_eq_true]
    rcases hi with hp | hrest
    · exact Or.inl (listPrefixB_append_right n (c :: cs) t hp)
    · exact Or.inr (ih hrest)

/-- Extending a string on the right keeps every substring. -/
theorem strInfix_append_right (n : List Char) (s t : String)
    (h : listInfixB n s.data = true) : listInfixB n (s ++ t).data = true := by
  rw [String.data_append]
  exact listInfixB_append_right n s.data t.data h

/-! ## Shape of the no-results message -/

theorem noFlightsMessage_data_shape (d a od : String) (rd : Option String)
    (pi : Option PriceInsights) :
    ∃ tail, (noFlightsMessage d a od rd pi).data =
      ("No flights found for " ++ d ++ " to " ++ a ++ " on " ++ od).data ++ tail := by
  unfold noFlightsMessage
  cases pi with
  | none =>
    cases hopt : optStrTruthy rd with
    | false =>
      exact ⟨" (one-way).".data, by simp [hopt, String.data_append]⟩
    | true =>
      exact ⟨" returning ".data ++ (rd.getD "").data ++ ".".data,
        by simp [hopt, String.data_append]⟩
  | some p =>
    cases hopt : optStrTruthy rd with
    | false =>
      exact ⟨" (one-way).".data ++ " Price insights: ".data ++
          (p.lowest_price.getD "N/A").data ++ ", typical range: ".data ++
          (p.price_level.getD "N/A").data ++ ".".data,
        by simp [hopt, String.data_append]⟩
    | true =>
      exact ⟨" returning ".data ++ (rd.getD "").data ++ ".".data ++
          " Price insights: ".data ++ (p.lowest_price.getD "N/A").data ++
          ", typical range: ".data ++ (p.price_level.getD "N/A").data ++ ".".data,
        by simp [hopt, String.data_append]⟩

theorem noFlightsMessage_infix_from (d a od : String) (rd : Option String)
    (pi : Option PriceInsights) :
    listInfixB d.data (noFlightsMessage d a od rd pi).data = true := by
  obtain ⟨tail, ht⟩ := noFlightsMessage_data_shape d a od rd pi
  rw [ht]
  refine listInfixB_append_right _ _ _ ?_
  exact listInfixB_intro d.data "No flights found for ".data
    (" to " ++ a ++ " on " ++ od).data _ (by simp [String.data_append])

theorem noFlightsMessage_infix_to (d a od : String) (rd : Option String)
    (pi : Option PriceInsights) :
    listInfixB a.data (noFlightsMessage d a od rd pi).data = true := by
  obtain ⟨tail, ht⟩ := noFlightsMessage_data_shape d a od rd pi
  rw [ht]
  refine listInfixB_append_right _ _ _ ?_
  exact listInfixB_intro a.data ("No flights found for " ++ d ++ " to ").data
    (" on " ++ od).data _ (by simp [String.data_append])

theorem noFlightsMessage_infix_date (d a od : String) (rd : Option String)
    (pi : Option PriceInsights) :
    listInfixB od.data (noFlightsMessage d a od rd pi).data = true := by
  obtain ⟨tail, ht⟩ := noFlightsMessage_data_shape d a od rd pi
  rw [ht]
  refine listInfixB_append_right _ _ _ ?_
  exact listInfixB_intro od.data
    ("No flights found for " ++ d ++ " to " ++ a ++ " on ").data
    ([] : List Char) _ (by simp [String.data_append])

theorem noFlightsMessage_infix_insights (d a od : String) (rd : Option String)
    (p : PriceInsights) :
    listInfixB (p.lowest_price.getD "N/A").data
      (noFlightsMessage d a od rd (some p)).data = true := by
  unfold noFlightsMessage
  cases hopt : optStrTruthy rd with
  | false =>
    simp only [hopt, Bool.false_eq_true, if_false]
    exact listInfixB_intro _
      ("No flights found for " ++ d ++ " to " ++ a ++ " on " ++ od ++ " (one-way)." ++
        " Price insights: ").data
      (", typical range: " ++ p.price_level.getD "N/A" ++ ".").data _
      (by simp [String.data_append])
  | true =>
    simp only [hopt, if_true]
    exact listInfixB_intro _
      ("No flights found for " ++ d ++ " to " ++ a ++ " on " ++ od ++ " returning " ++
        rd.getD "" ++ "." ++ " Price insights: ").data
      (", typical range: " ++ p.price_level.getD "N/A" ++ ".").data _
      (by simp [String.data_append])

/-! ## Branch lemmas for the tool functions -/

/-- With a configured credential, every `get_flight_prices` call — whatever
its inputs and transport outcome — leaves the history extended by exactly the
entry recording its four parameters. -/
theorem gfp_flight_searches (key : Option String) (st : ConvState)
    (d a od : String) (rd : Option String) (http : HttpOutcome)
    (hkey : optStrTruthy key = true) :
    (get_flight_prices key st d a od rd http).state.flight_searches
      = st.flight_searches ++ [⟨d, a, od, rd⟩] := by
  unfold get_flight_prices
  simp only [hkey, Bool.not_true, Bool.false_eq_true, if_false]
  repeat' first | rfl | split

/-- With a configured credential, every `get_airport_code` call leaves the
history extended by exactly the queried city name. -/
theorem gac_airport_searches (key : Option String) (st : ConvState)
    (city : String) (http : AHttpOutcome)
    (hkey : optStrTruthy key = true) :
    (get_airport_code key st city http).state.airport_searches
      = st.airport_searches ++ [city] := by
  unfold get_airport_code
  simp only [hkey, Bool.not_true, Bool.false_eq_true, if_false]
  repeat' first | rfl | split

/-- Full evaluation of a `get_flight_prices` call that reaches a parsed
response with no error field and both flight lists empty-or-missing. -/
theorem gfp_no_results_eq (key : Option String) (st : ConvState)
    (d a od : String) (rd : Option String) (code : Nat) (fd : FlightData)
    (hkey : optStrTruthy key = true)
    (hod : validate_date_format od = true)
    (hrd : (optStrTruthy rd && !validate_date_format (rd.getD "")) = false)
    (hd : iataCodeOk d = true) (ha : iataCodeOk a = true)
    (hcode : code < 400) (herr : fd.error = none)
    (hempty : ((fd.best_flights.getD []).isEmpty &&
      (fd.other_flights.getD []).isEmpty) = true) :
    get_flight_prices key st d a od rd (.response code (some fd)) =
      { result := .noResults (noFlightsMessage d a od rd fd.price_insights)
          ⟨d, a, od, rd, if optStrTruthy rd then "round-trip" else "one-way"⟩,
        state := { st with flight_searches := st.flight_searches ++ [⟨d, a, od, rd⟩] },
        query := some (flightQueryParams key d a od rd) } := by
  have h401 : (code == 401) = false := by simp; omega
  have h429 : (code == 429) = false := by simp; omega
  have h400 : ¬ (code ≥ 400) := by omega
  unfold get_flight_prices
  simp only [hkey, hod, hrd, hd, ha, herr, h401, h429, h400, hempty,
    Bool.not_true, Bool.false_eq_true, if_false, if_true, Bool.not_false,
    Bool.true_eq_false, ite_false, ite_true]

/-- Full evaluation of a `get_flight_prices` call that reaches a parsed
response with no error field and at least one flight present. -/
theorem gfp_success_eq (key : Option String) (st : ConvState)
    (d a od : String) (rd : Option String) (code : Nat) (fd : FlightData)
    (hkey : optStrTruthy key = true)
    (hod : validate_date_format od = true)
    (hrd : (optStrTruthy rd && !validate_date_format (rd.getD "")) = false)
    (hd : iataCodeOk d = true) (ha : iataCodeOk a = true)
    (hcode : code < 400) (herr : fd.error = none)
    (hflights : ((fd.best_flights.getD []).isEmpty &&
      (fd.other_flights.getD []).isEmpty) = false) :
    get_flight_prices key st d a od rd (.response code (some fd)) =
      { result := .success
          ⟨d, a, od, rd, if optStrTruthy rd then "round-trip" else "one-way"⟩
          (fd.best_flights.getD []) (fd.other_flights.getD []) fd.price_insights,
        state := { st with
          flight_searches := st.flight_searches ++ [⟨d, a, od, rd⟩],
          last_flight_search := some (.success
            ⟨d, a, od, rd, if optStrTruthy rd then "round-trip" else "one-way"⟩
            (fd.best_flights.getD []) (fd.other_flights.getD []) fd.price_insights) },
        query := some (flightQueryParams key d a od rd) } := by
  have h401 : (code == 401) = false := by simp; omega
  have h429 : (code == 429) = false := by simp; omega
  have h400 : ¬ (code ≥ 400) := by omega
  unfold get_flight_prices
  simp only [hkey, hod, hrd, hd, ha, herr, h401, h429, h400, hflights,
    Bool.not_true, Bool.false_eq_true, if_false, if_true, Bool.not_false,
    Bool.true_eq_false, ite_false, ite_true]

/-- Full evaluation of a `get_flight_prices` call whose parsed response
carries an explicit upstream error field. -/
theorem gfp_api_error_eq (key : Option String) (st : ConvState)
    (d a od : String) (rd : Option String) (code : Nat) (fd : FlightData)
    (e : String)
    (hkey : optStrTruthy key = true)
    (hod : validate_date_format od = true)
    (hrd : (optStrTruthy rd && !validate_date_format (rd.getD "")) = false)
    (hd : iataCodeOk d = true) (ha : iataCodeOk a = true)
    (hcode : code < 400) (herr : fd.error = some e) :
    get_flight_prices key st d a od rd (.response code (some fd)) =
      { result := .error ("API Error: " ++ e),
        state := { st with flight_searches := st.flight_searches ++ [⟨d, a, od, rd⟩] },
        query := some (flightQueryParams key d a od rd) } := by
  have h401 : (code == 401) = false := by simp; omega
  have h429 : (code == 429) = false := by simp; omega
  have h400 : ¬ (code ≥ 400) := by omega
  unfold get_flight_prices
  simp only [hkey, hod, hrd, hd, ha, herr, h401, h429, h400,
    Bool.not_true, Bool.false_eq_true, if_false, if_true, Bool.not_false,
    Bool.true_eq_false, ite_false, ite_true]

/-! ## Structure of the date validator -/

theorem strptimeRealDate_imp_pattern (s : String)
    (h : strptimeRealDate s = true) : datePatternExact s = true := by
  unfold strptimeRealDate at h
  unfold datePatternExact
  cases hdc : dateComponents s.data with
  | none => rw [hdc] at h; exact absurd h (by simp)
  | some v => simp [hdc]

/-- `validate_date_format` decomposes into the exact pattern check and the
real-calendar-date check: the regex's tolerance of one trailing newline never
changes the result, because `strptime` rejects that same newline. -/
theorem validate_date_format_eq (s : String) :
    validate_date_format s = (datePatternExact s && strptimeRealDate s) := by
  unfold validate_date_format pyDateRegexMatch
  cases hex : datePatternExact s with
  | false =>
    cases hreal : strptimeRealDate s with
    | false => simp [hex, hreal]
    | true => exact absurd (strptimeRealDate_imp_pattern s hreal) (by simp [hex])
  | true => simp [hex]

/-! ## The claims -/

/-- C1: with a configured credential, every invocation of `get_airport_code`
appends exactly the queried city to `airport_searches` and every invocation
of `get_flight_prices` appends exactly its four parameters to
`flight_searches`, whatever the transport outcome; two successive
`get_flight_prices` calls leave exactly two entries in call order. -/
theorem c1_history_records_every_attempt (key : Option String) (st : ConvState)
    (d a od : String) (rd : Option String) (d2 a2 od2 : String) (rd2 : Option String)
    (city : String) (http http2 : HttpOutcome) (ahttp : AHttpOutcome)
    (hkey : optStrTruthy key = true) :
    (get_flight_prices key st d a od rd http).state.flight_searches
      = st.flight_searches ++ [⟨d, a, od, rd⟩]
    ∧ (get_airport_code key st city ahttp).state.airport_searches
      = st.airport_searches ++ [city]
    ∧ (get_flight_prices key (get_flight_prices key st d a od rd http).state
        d2 a2 od2 rd2 http2).state.flight_searches
      = st.flight_searches ++ [⟨d, a, od, rd⟩, ⟨d2, a2, od2, rd2⟩] := by
  refine ⟨gfp_flight_searches key st d a od rd http hkey,
    gac_airport_searches key st city ahttp hkey, ?_⟩
  rw [gfp_flight_searches key _ d2 a2 od2 rd2 http2 hkey,
    gfp_flight_searches key st d a od rd http hkey]
  simp

/-- Closed instance of C1 at concrete inputs. -/
theorem c1_witness :
    (get_flight_prices (some "k") st0 "BLR" "BOM" "2024-12-25" none .timeout).state.flight_searches
      = st0.flight_searches ++ [⟨"BLR", "BOM", "2024-12-25", none⟩]
    ∧ (get_airport_code (some "k") st0 "Bangalore" .timeout).state.airport_searches
      = st0.airport_searches ++ ["Bangalore"]
    ∧ (get_flight_prices (some "k")
        (get_flight_prices (some "k") st0 "BLR" "BOM" "2024-12-25" none .timeout).state
        "DEL" "BOM" "2025-01-01" (some "2025-01-05") .timeout).state.flight_searches
      = st0.flight_searches ++ [⟨"BLR", "BOM", "2024-12-25", none⟩,
          ⟨"DEL", "BOM", "2025-01-01", some "2025-01-05"⟩] :=
  c1_history_records_every_attempt (some "k") st0 "BLR" "BOM" "2024-12-25" none
    "DEL" "BOM" "2025-01-01" (some "2025-01-05") "Bangalore" .timeout .timeout .timeout
    (by decide)

/-- C6: with no credential configured, both lookups return an error result
immediately and leave the whole conversation state unchanged; with a
credential, the corresponding history always grows by one, so the missing
credential is the only unrecorded case. -/
theorem c6_missing_credential (key key2 : Option String) (st : ConvState)
    (d a od : String) (rd : Option String) (city : String)
    (http : HttpOutcome) (ahttp : AHttpOutcome)
    (hkey : optStrTruthy key = false) :
    (get_flight_prices key st d a od rd http).result
      = .error "SERP_API_KEY not found in environment variables."
    ∧ (get_flight_prices key st d a od rd http).state = st
    ∧ (get_airport_code key st city ahttp).result
      = .error "SERP_API_KEY not found in environment variables."
    ∧ (get_airport_code key st city ahttp).state = st
    ∧ (optStrTruthy key2 = true →
        (get_flight_prices key2 st d a od rd http).state.flight_searches.length
          = st.flight_searches.length + 1
        ∧ (get_airport_code key2 st city ahttp).state.airport_searches.length
          = st.airport_searches.length + 1) := by
  refine ⟨?_, ?_, ?_, ?_, ?_⟩
  · unfold get_flight_prices; simp [hkey]
  · unfold get_flight_prices; simp [hkey]
  · unfold get_airport_code; simp [hkey]
  · unfold get_airport_code; simp [hkey]
  · intro hk2
    rw [gfp_flight_searches key2 st d a od rd http hk2,
      gac_airport_searches key2 st city ahttp hk2]
    simp

/-- Closed instance of C6 at concrete inputs. -/
theorem c6_witness :
    (get_flight_prices none st0 "BLR" "BOM" "2024-12-25" none .timeout).result
      = .error "SERP_API_KEY not found in environment variables."
    ∧ (get_flight_prices none st0 "BLR" "BOM" "2024-12-25" none .timeout).state = st0
    ∧ (get_airport_code none st0 "Bangalore" .timeout).result
      = .error "SERP_API_KEY not found in environment variables."
    ∧ (get_airport_code none st0 "Bangalore" .timeout).state = st0
    ∧ ((get_flight_prices (some "k") st0 "BLR" "BOM" "2024-12-25" none
        .timeout).state.flight_searches.length = st0.flight_searches.length + 1)
    ∧ ((get_airport_code (some "k") st0 "Bangalore"
        .timeout).state.airport_searches.length = st0.airport_searches.length + 1) := by
  have h := c6_missing_credential none (some "k") st0 "BLR" "BOM" "2024-12-25" none
    "Bangalore" .timeout .timeout (by decide)
  have h5 := h.2.2.2.2 (by decide)
  exact ⟨h.1, h.2.1, h.2.2.1, h.2.2.2.1, h5.1, h5.2⟩

/-- C2: a call whose parsed response has no error field and both flight lists
empty returns `no_results` with a message containing the departure code, the
arrival code and the outbound date (and the price-insight hints when
present), and leaves `last_flight_search` untouched. -/
theorem c2_no_results_message_and_state (key : Option String) (st : ConvState)
    (d a od : String) (rd : Option String) (code : Nat) (fd : FlightData)
    (hkey : optStrTruthy key = true)
    (hod : validate_date_format od = true)
    (hrd : (optStrTruthy rd && !validate_date_format (rd.getD "")) = false)
    (hd : iataCodeOk d = true) (ha : iataCodeOk a = true)
    (hcode : code < 400) (herr : fd.error = none)
    (hbest : fd.best_flights.getD [] = [])
    (hother : fd.other_flights.getD [] = []) :
    ∃ msg params,
      (get_flight_prices key st d a od rd (.response code (some fd))).result
        = .noResults msg params
      ∧ listInfixB d.data msg.data = true
      ∧ listInfixB a.data msg.data = true
      ∧ listInfixB od.data msg.data = true
      ∧ (∀ p : PriceInsights, fd.price_insights = some p →
          listInfixB (p.lowest_price.getD "N/A").data msg.data = true)
      ∧ (get_flight_prices key st d a od rd
          (.response code (some fd))).state.last_flight_search
        = st.last_flight_search := by
  have hempty : ((fd.best_flights.getD []).isEmpty &&
      (fd.other_flights.getD []).isEmpty) = true := by simp [hbest, hother]
  rw [gfp_no_results_eq key st d a od rd code fd hkey hod hrd hd ha hcode herr hempty]
  refine ⟨_, _, rfl, noFlightsMessage_infix_from d a od rd fd.price_insights,
    noFlightsMessage_infix_to d a od rd fd.price_insights,
    noFlightsMessage_infix_date d a od rd fd.price_insights, ?_, rfl⟩
  intro p hp
  rw [hp]
  exact noFlightsMessage_infix_insights d a od rd p

/-- Closed instance of C2 at concrete inputs, price insights included. -/
theorem c2_witness :
    ∃ msg params,
      (get_flight_prices (some "k") st0 "BLR" "BOM" "2024-12-25" none
        (.response 200 (some ⟨none, some [], none, some ⟨some "4500", some "low"⟩⟩))).result
        = .noResults msg params
      ∧ listInfixB "BLR".data msg.data = true
      ∧ listInfixB "BOM".data msg.data = true
      ∧ listInfixB "2024-12-25".data msg.data = true
      ∧ (∀ p : PriceInsights,
          (some (⟨some "4500", some "low"⟩ : PriceInsights) = some p) →
          listInfixB (p.lowest_price.getD "N/A").data msg.data = true)
      ∧ (get_flight_prices (some "k") st0 "BLR" "BOM" "2024-12-25" none
          (.response 200 (some ⟨none, some [], none,
            some ⟨some "4500", some "low"⟩⟩))).state.last_flight_search
        = st0.last_flight_search :=
  c2_no_results_message_and_state (some "k") st0 "BLR" "BOM" "2024-12-25" none 200
    ⟨none, some [], none, some ⟨some "4500", some "low"⟩⟩
    (by decide) (by decide) (by decide) (by decide) (by decide) (by decide)
    (by decide) (by decide) (by decide)

/-- C3: a call whose parsed response has no error field and at least one
flight returns `success` carrying the two flight lists, the price insights
and the normalized search parameters, and overwrites `last_flight_search`
with exactly the returned structure. -/
theorem c3_success_updates_last (key : Option String) (st : ConvState)
    (d a od : String) (rd : Option String) (code : Nat) (fd : FlightData)
    (hkey : optStrTruthy key = true)
    (hod : validate_date_format od = true)
    (hrd : (optStrTruthy rd && !validate_date_format (rd.getD "")) = false)
    (hd : iataCodeOk d = true) (ha : iataCodeOk a = true)
    (hcode : code < 400) (herr : fd.error = none)
    (hflights : ((fd.best_flights.getD []).isEmpty &&
      (fd.other_flights.getD []).isEmpty) = false) :
    (get_flight_prices key st d a od rd (.response code (some fd))).result
      = .success ⟨d, a, od, rd, if optStrTruthy rd then "round-trip" else "one-way"⟩
          (fd.best_flights.getD []) (fd.other_flights.getD []) fd.price_insights
    ∧ (get_flight_prices key st d a od rd
        (.response code (some fd))).state.last_flight_search
      = some ((get_flight_prices key st d a od rd (.response code (some fd))).result) := by
  rw [gfp_success_eq key st d a od rd code fd hkey hod hrd hd ha hcode herr hflights]
  exact ⟨rfl, rfl⟩

/-- Closed instance of C3 at concrete inputs, one entry in `best_flights`. -/
theorem c3_witness :
    (get_flight_prices (some "k") st0 "BLR" "BOM" "2024-12-25" none
      (.response 200 (some ⟨none, some ["offer1"], none, none⟩))).result
      = .success ⟨"BLR", "BOM", "2024-12-25", none,
          if optStrTruthy none then "round-trip" else "one-way"⟩
          ((some ["offer1"] : Option (List Flight)).getD [])
          ((none : Option (List Flight)).getD []) none
    ∧ (get_flight_prices (some "k") st0 "BLR" "BOM" "2024-12-25" none
        (.response 200 (some ⟨none, some ["offer1"], none, none⟩))).state.last_flight_search
      = some ((get_flight_prices (some "k") st0 "BLR" "BOM" "2024-12-25" none
          (.response 200 (some ⟨none, some ["offer1"], none, none⟩))).result) :=
  c3_success_updates_last (some "k") st0 "BLR" "BOM" "2024-12-25" none 200
    ⟨none, some ["offer1"], none, none⟩
    (by decide) (by decide) (by decide) (by decide) (by decide) (by decide)
    (by decide) (by decide)

/-- C4: the date validator returns true exactly on strings that match the
ten-character `YYYY-MM-DD` shape and denote a real calendar date; in
particular `"2024/12/25"` and the non-existent `"2023-02-30"` are rejected
and `"2024-12-25"` is accepted. The Lean embedding is a total function, so
no exception can escape and there are no side effects. -/
theorem c4_date_validator_contract :
    validate_date_format "2024/12/25" = false
    ∧ validate_date_format "2023-02-30" = false
    ∧ validate_date_format "2024-12-25" = true
    ∧ ∀ s : String, validate_date_format s = true ↔
        (datePatternExact s = true ∧ strptimeRealDate s = true) := by
  refine ⟨by decide, by decide, by decide, ?_⟩
  intro s
  rw [validate_date_format_eq]
  simp

/-- Closed instance of C4's equivalence at a concrete input. -/
theorem c4_witness :
    validate_date_format "1999-02-28" = true ↔
      (datePatternExact "1999-02-28" = true ∧ strptimeRealDate "1999-02-28" = true) :=
  c4_date_validator_contract.2.2.2 "1999-02-28"

/-- C5: with a configured credential, validation runs in the order outbound
date, return date (when truthy), departure code, arrival code; the first
failing check returns an error naming that field and its expected format,
short-circuits the later checks, and no HTTP request is issued. -/
theorem c5_validation_order (key : Option String) (st : ConvState)
    (d a od : String) (rd : Option String) (http : HttpOutcome)
    (hkey : optStrTruthy key = true) :
    (validate_date_format od = false →
      (get_flight_prices key st d a od rd http).result
        = .error ("Invalid outbound date format: " ++ sq ++ od ++ sq ++
            ". Please use YYYY-MM-DD.")
      ∧ (get_flight_prices key st d a od rd http).query = none)
    ∧ (validate_date_format od = true → optStrTruthy rd = true →
        validate_date_format (rd.getD "") = false →
      (get_flight_prices key st d a od rd http).result
        = .error ("Invalid return date format: " ++ sq ++ rd.getD "" ++ sq ++
            ". Please use YYYY-MM-DD.")
      ∧ (get_flight_prices key st d a od rd http).query = none)
    ∧ (validate_date_format od = true →
        (optStrTruthy rd && !validate_date_format (rd.getD "")) = false →
        iataCodeOk d = false →
      (get_flight_prices key st d a od rd http).result
        = .error ("Invalid departure airport code: " ++ sq ++ d ++ sq ++
            ". Please provide a valid 3-letter IATA code.")
      ∧ (get_flight_prices key st d a od rd http).query = none)
    ∧ (validate_date_format od = true →
        (optStrTruthy rd && !validate_date_format (rd.getD "")) = false →
        iataCodeOk d = true → iataCodeOk a = false →
      (get_flight_prices key st d a od rd http).result
        = .error ("Invalid arrival airport code: " ++ sq ++ a ++ sq ++
            ". Please provide a valid 3-letter IATA code.")
      ∧ (get_flight_prices key st d a od rd http).query = none) := by
  refine ⟨?_, ?_, ?_, ?_⟩
  · intro hod
    unfold get_flight_prices
    simp [hkey, hod]
  · intro hod hrdt hrdv
    unfold get_flight_prices
    simp [hkey, hod, hrdt, hrdv]
  · intro hod hrdc hdbad
    unfold get_flight_prices
    simp [hkey, hod, hrdc, hdbad]
  · intro hod hrdc hdok habad
    unfold get_flight_prices
    simp [hkey, hod, hrdc, hdok, habad]

/-- Closed instance of C5's first check at a concrete malformed date. -/
theorem c5_witness :
    (get_flight_prices (some "k") st0 "BLR" "BOM" "25-12-2024" none .timeout).result
      = .error ("Invalid outbound date format: " ++ sq ++ "25-12-2024" ++ sq ++
          ". Please use YYYY-MM-DD.")
    ∧ (get_flight_prices (some "k") st0 "BLR" "BOM" "25-12-2024" none .timeout).query
      = none :=
  (c5_validation_order (some "k") st0 "BLR" "BOM" "25-12-2024" none .timeout
    (by decide)).1 (by decide)

/-- C7: an airport lookup whose parsed response lacks `knowledge_graph`
returns the first `min 3 n` organic results and overwrites
`last_airport_code` when organic results are present, and otherwise returns
an error naming the city without touching `last_airport_code`. -/
theorem c7_airport_fallback (key : Option String) (st : ConvState)
    (city : String) (data : AirportData)
    (hkey : optStrTruthy key = true)
    (hkg : data.knowledge_graph = none) :
    (∀ l, data.organic_results = some l →
      (get_airport_code key st city (.ok data)).result = .successOrganic (l.take 3)
      ∧ (get_airport_code key st city (.ok data)).state.last_airport_code
        = some (.successOrganic (l.take 3))
      ∧ (l.take 3).length = min 3 l.length)
    ∧ (data.organic_results = none →
      (get_airport_code key st city (.ok data)).result
        = .error ("Could not find airport code for " ++ city)
      ∧ (get_airport_code key st city (.ok data)).state.last_airport_code
        = st.last_airport_code) := by
  constructor
  · intro l hl
    unfold get_airport_code
    simp [hkey, hkg, hl, List.length_take]
  · intro hnone
    unfold get_airport_code
    simp [hkey, hkg, hnone]

/-- Closed instance of C7 with five organic results: exactly three kept. -/
theorem c7_witness :
    (get_airport_code (some "k") st0 "Bangalore"
      (.ok ⟨none, some ["r1", "r2", "r3", "r4", "r5"]⟩)).result
      = .successOrganic (["r1", "r2", "r3", "r4", "r5"].take 3)
    ∧ (get_airport_code (some "k") st0 "Bangalore"
        (.ok ⟨none, some ["r1", "r2", "r3", "r4", "r5"]⟩)).state.last_airport_code
      = some (.successOrganic (["r1", "r2", "r3", "r4", "r5"].take 3))
    ∧ (["r1", "r2", "r3", "r4", "r5"].take 3).length
      = min 3 ["r1", "r2", "r3", "r4", "r5"].length := by
  have h := c7_airport_fallback (some "k") st0 "Bangalore"
    ⟨none, some ["r1", "r2", "r3", "r4", "r5"]⟩ (by decide) rfl
  have h1 := h.1 ["r1", "r2", "r3", "r4", "r5"] rfl
  exact ⟨h1.1, h1.2.1, h1.2.2⟩

/-- C8: for calls that reach a parsed response, a missing `best_flights` or
`other_flights` key behaves exactly like an empty list (the whole output is
unchanged by filling the missing keys with `[]`), and a response with
neither key, no error field and any `price_insights` yields `no_results`,
never an error or an exception. -/
theorem c8_missing_flight_keys (key : Option String) (st : ConvState)
    (d a od : String) (rd : Option String) (code : Nat) (fd : FlightData)
    (pi : Option PriceInsights)
    (hkey : optStrTruthy key = true)
    (hod : validate_date_format od = true)
    (hrd : (optStrTruthy rd && !validate_date_format (rd.getD "")) = false)
    (hd : iataCodeOk d = true) (ha : iataCodeOk a = true)
    (hcode : code < 400) :
    get_flight_prices key st d a od rd (.response code (some fd))
      = get_flight_prices key st d a od rd (.response code (some
          { fd with best_flights := some (fd.best_flights.getD []),
                    other_flights := some (fd.other_flights.getD []) }))
    ∧ (get_flight_prices key st d a od rd
        (.response code (some ⟨none, none, none, pi⟩))).result.status
      = "no_results" := by
  constructor
  · cases herr : fd.error with
    | some e =>
      rw [gfp_api_error_eq key st d a od rd code fd e hkey hod hrd hd ha hcode herr,
        gfp_api_error_eq key st d a od rd code
          ⟨some e, some (fd.best_flights.getD []), some (fd.other_flights.getD []),
            fd.price_insights⟩ e hkey hod hrd hd ha hcode rfl]
    | none =>
      cases hempty : ((fd.best_flights.getD []).isEmpty &&
          (fd.other_flights.getD []).isEmpty) with
      | true =>
        rw [gfp_no_results_eq key st d a od rd code fd hkey hod hrd hd ha hcode
            herr hempty,
          gfp_no_results_eq key st d a od rd code
            ⟨none, some (fd.best_flights.getD []), some (fd.other_flights.getD []),
              fd.price_insights⟩ hkey hod hrd hd ha hcode rfl hempty]
      | false =>
        rw [gfp_success_eq key st d a od rd code fd hkey hod hrd hd ha hcode
            herr hempty,
          gfp_success_eq key st d a od rd code
            ⟨none, some (fd.best_flights.getD []), some (fd.other_flights.getD []),
              fd.price_insights⟩ hkey hod hrd hd ha hcode rfl hempty]
        rfl
  · rw [gfp_no_results_eq key st d a od rd code ⟨none, none, none, pi⟩ hkey hod hrd
      hd ha hcode rfl rfl]
    rfl

/-- Closed instance of C8 at a concrete response lacking both flight keys. -/
theorem c8_witness :
    get_flight_prices (some "k") st0 "BLR" "BOM" "2024-12-25" none
      (.response 200 (some ⟨none, none, none, none⟩))
      = get_flight_prices (some "k") st0 "BLR" "BOM" "2024-12-25" none
          (.response 200 (some
            { (⟨none, none, none, none⟩ : FlightData) with
                best_flights :=
                  some ((⟨none, none, none, none⟩ : FlightData).best_flights.getD []),
                other_flights :=
                  some ((⟨none, none, none, none⟩ : FlightData).other_flights.getD []) }))
    ∧ (get_flight_prices (some "k") st0 "BLR" "BOM" "2024-12-25" none
        (.response 200 (some ⟨none, none, none, none⟩))).result.status
      = "no_results" :=
  c8_missing_flight_keys (some "k") st0 "BLR" "BOM" "2024-12-25" none 200
    ⟨none, none, none, none⟩ none
    (by decide) (by decide) (by decide) (by decide) (by decide) (by decide)

/-- C9: a call with `return_date = ""` skips the return-date format check
(which `""` would fail), issues a one-way search whose query carries the
`type = 2` discriminator and no `return_date` parameter, reports
`trip_type = "one-way"`, and still records `""` (not absence) in the history
entry. -/
theorem c9_empty_return_date (key : Option String) (st : ConvState)
    (d a od : String) (code : Nat) (fd : FlightData)
    (hkey : optStrTruthy key = true)
    (hod : validate_date_format od = true)
    (hd : iataCodeOk d = true) (ha : iataCodeOk a = true)
    (hcode : code < 400) (herr : fd.error = none) :
    validate_date_format "" = false
    ∧ (get_flight_prices key st d a od (some "")
        (.response code (some fd))).state.flight_searches
      = st.flight_searches ++ [⟨d, a, od, some ""⟩]
    ∧ (∃ q, (get_flight_prices key st d a od (some "")
          (.response code (some fd))).query = some q
        ∧ ("type", "2") ∈ q ∧ ∀ v, ("return_date", v) ∉ q)
    ∧ (get_flight_prices key st d a od (some "")
        (.response code (some fd))).result.tripTypeOf = some "one-way" := by
  have hrd : (optStrTruthy (some "") &&
      !validate_date_format ((some "" : Option String).getD "")) = false := rfl
  have hrdf : optStrTruthy (some "") = false := rfl
  refine ⟨by decide,
    gfp_flight_searches key st d a od (some "") (.response code (some fd)) hkey,
    ?_, ?_⟩
  · cases hempty : ((fd.best_flights.getD []).isEmpty &&
        (fd.other_flights.getD []).isEmpty) with
    | true =>
      rw [gfp_no_results_eq key st d a od (some "") code fd hkey hod hrd hd ha
        hcode herr hempty]
      refine ⟨flightQueryParams key d a od (some ""), rfl, ?_, ?_⟩
      · simp [flightQueryParams, hrdf]
      · intro v
        simp [flightQueryParams, hrdf]
    | false =>
      rw [gfp_success_eq key st d a od (some "") code fd hkey hod hrd hd ha
        hcode herr hempty]
      refine ⟨flightQueryParams key d a od (some ""), rfl, ?_, ?_⟩
      · simp [flightQueryParams, hrdf]
      · intro v
        simp [flightQueryParams, hrdf]
  · cases hempty : ((fd.best_flights.getD []).isEmpty &&
        (fd.other_flights.getD []).isEmpty) with
    | true =>
      rw [gfp_no_results_eq key st d a od (some "") code fd hkey hod hrd hd ha
        hcode herr hempty]
      rfl
    | false =>
      rw [gfp_success_eq key st d a od (some "") code fd hkey hod hrd hd ha
        hcode herr hempty]
      rfl

/-- Closed instance of C9 at concrete inputs. -/
theorem c9_witness :
    validate_date_format "" = false
    ∧ (get_flight_prices (some "k") st0 "BLR" "BOM" "2024-12-25" (some "")
        (.response 200 (some ⟨none, none, none, none⟩))).state.flight_searches
      = st0.flight_searches ++ [⟨"BLR", "BOM", "2024-12-25", some ""⟩]
    ∧ (∃ q, (get_flight_prices (some "k") st0 "BLR" "BOM" "2024-12-25" (some "")
          (.response 200 (some ⟨none, none, none, none⟩))).query = some q
        ∧ ("type", "2") ∈ q ∧ ∀ v, ("return_date", v) ∉ q)
    ∧ (get_flight_prices (some "k") st0 "BLR" "BOM" "2024-12-25" (some "")
        (.response 200 (some ⟨none, none, none, none⟩))).result.tripTypeOf
      = some "one-way" :=
  c9_empty_return_date (some "k") st0 "BLR" "BOM" "2024-12-25" 200
    ⟨none, none, none, none⟩
    (by decide) (by decide) (by decide) (by decide) (by decide) (by decide)

/-- C10: airport-code validation is case-insensitive (three alphabetic
characters of any case pass, e.g. `"blr"`), only the outgoing query
upper-cases the codes, and the history entry, the returned search
parameters and the no-results message keep the caller's spelling. -/
theorem c10_code_case_preserved (key : Option String) (st : ConvState)
    (d a od : String) (rd : Option String) (code : Nat) (fd : FlightData)
    (hkey : optStrTruthy key = true)
    (hod : validate_date_format od = true)
    (hrd : (optStrTruthy rd && !validate_date_format (rd.getD "")) = false)
    (hd : iataCodeOk d = true) (ha : iataCodeOk a = true)
    (hcode : code < 400) (herr : fd.error = none)
    (hbest : fd.best_flights.getD [] = [])
    (hother : fd.other_flights.getD [] = []) :
    iataCodeOk "blr" = true
    ∧ (get_flight_prices key st d a od rd
        (.response code (some fd))).state.flight_searches
      = st.flight_searches ++ [⟨d, a, od, rd⟩]
    ∧ (∃ q, (get_flight_prices key st d a od rd
          (.response code (some fd))).query = some q
        ∧ ("departure_id", d.toUpper) ∈ q ∧ ("arrival_id", a.toUpper) ∈ q)
    ∧ (∃ msg p, (get_flight_prices key st d a od rd
          (.response code (some fd))).result = .noResults msg p
        ∧ p.fromId = d ∧ p.toId = a
        ∧ listInfixB d.data msg.data = true
        ∧ listInfixB a.data msg.data = true) := by
  have hempty : ((fd.best_flights.getD []).isEmpty &&
      (fd.other_flights.getD []).isEmpty) = true := by simp [hbest, hother]
  refine ⟨by decide,
    gfp_flight_searches key st d a od rd (.response code (some fd)) hkey, ?_, ?_⟩
  · rw [gfp_no_results_eq key st d a od rd code fd hkey hod hrd hd ha hcode
      herr hempty]
    refine ⟨flightQueryParams key d a od rd, rfl, ?_, ?_⟩
    · unfold flightQueryParams
      cases optStrTruthy rd <;> simp
    · unfold flightQueryParams
      cases optStrTruthy rd <;> simp
  · rw [gfp_no_results_eq key st d a od rd code fd hkey hod hrd hd ha hcode
      herr hempty]
    exact ⟨_, _, rfl, rfl, rfl,
      noFlightsMessage_infix_from d a od rd fd.price_insights,
      noFlightsMessage_infix_to d a od rd fd.price_insights⟩

/-- Closed instance of C10 with lower-case codes. -/
theorem c10_witness :
    iataCodeOk "blr" = true
    ∧ (get_flight_prices (some "k") st0 "blr" "del" "2024-12-25" none
        (.response 200 (some ⟨none, none, none, none⟩))).state.flight_searches
      = st0.flight_searches ++ [⟨"blr", "del", "2024-12-25", none⟩]
    ∧ (∃ q, (get_flight_prices (some "k") st0 "blr" "del" "2024-12-25" none
          (.response 200 (some ⟨none, none, none, none⟩))).query = some q
        ∧ ("departure_id", "blr".toUpper) ∈ q ∧ ("arrival_id", "del".toUpper) ∈ q)
    ∧ (∃ msg p, (get_flight_prices (some "k") st0 "blr" "del" "2024-12-25" none
          (.response 200 (some ⟨none, none, none, none⟩))).result = .noResults msg p
        ∧ p.fromId = "blr" ∧ p.toId = "del"
        ∧ listInfixB "blr".data msg.data = true
        ∧ listInfixB "del".data msg.data = true) :=
  c10_code_case_preserved (some "k") st0 "blr" "del" "2024-12-25" none 200
    ⟨none, none, none, none⟩
    (by decide) (by decide) (by decide) (by decide) (by decide) (by decide)
    (by decide) (by decide) (by decide)

end FlightAssistant
